import Mathlib

/-!
Shallow embedding of `niri-wselector` (src/niri_wselector/__main__.py).

The program is a selection/ranking layer: it snapshots the compositor state
(windows, workspaces), optionally filters windows by predicates, sorts them
by a priority key tuple (Python `sorted` with a `key=` function), renders
human-readable labels, and maps a picked index back to focus actions.

Python-specific behaviours are modelled explicitly:
  - Python big integers are `Int` (`sys.maxsize` sentinels are exact values);
  - `dict.get` returning `None` is `Option`;
  - raising exceptions (`KeyError` from `self.workspace_id_map[...]`,
    `TypeError` from comparing `None` with `str`) is `Except Unit`;
  - `sorted` is a stable insertion sort over the pre-computed key list,
    threaded through `Except` because key comparison can raise `TypeError`;
  - truthiness of strings/dicts (`""` and `{}` are falsy) is modelled where
    the source relies on it (`or`, `if output := ...`, match guards).
-/

/-- Python scalar values as they appear in the niri JSON records. -/
inductive PyValue : Type
  | int (i : Int)
  | str (s : String)
  | bool (b : Bool)
  | none
deriving DecidableEq, Repr

/-- Python `==` on scalar values (`True == 1` holds in Python). -/
def pyEq : PyValue → PyValue → Bool
  | .int a, .int b => a == b
  | .str a, .str b => a == b
  | .bool a, .bool b => a == b
  | .bool a, .int b => (if a then (1 : Int) else 0) == b
  | .int a, .bool b => a == (if b then (1 : Int) else 0)
  | .none, .none => true
  | _, _ => false

/-- One record of `niri msg --json windows` (WindowEntryDict in the source). -/
structure WindowEntry : Type where
  id : Int
  title : String
  app_id : String
  workspace_id : Int
  is_focused : Bool
  is_floating : Bool
deriving DecidableEq, Repr

/-- One record of `niri msg --json workspaces` (WorkspaceEntryDict in the
source); `name` and `output` are `NotRequired` keys, hence `Option`. -/
structure WorkspaceEntry : Type where
  id : Int
  idx : Int
  name : Option String
  output : Option String
  is_active : Bool
  is_focused : Bool
  active_window_id : Int
deriving DecidableEq, Repr

/-- Field access on a window record, as Python `item.get(key)`. -/
def WindowEntry.get (w : WindowEntry) : String → PyValue
  | "id" => .int w.id
  | "title" => .str w.title
  | "app_id" => .str w.app_id
  | "workspace_id" => .int w.workspace_id
  | "is_focused" => .bool w.is_focused
  | "is_floating" => .bool w.is_floating
  | _ => .none

/-- Field access on a workspace record, as Python `item.get(key)`. -/
def WorkspaceEntry.get (w : WorkspaceEntry) : String → PyValue
  | "id" => .int w.id
  | "idx" => .int w.idx
  | "name" => match w.name with | some n => .str n | Option.none => .none
  | "output" => match w.output with | some o => .str o | Option.none => .none
  | "is_active" => .bool w.is_active
  | "is_focused" => .bool w.is_focused
  | "active_window_id" => .int w.active_window_id
  | _ => .none

/-- The snapshot of compositor state (class NiriState). -/
structure NiriState : Type where
  windows : List WindowEntry
  workspaces : List WorkspaceEntry
deriving DecidableEq, Repr

/-- NiriState.focused_window: first window with `is_focused`. -/
def NiriState.focused_window (s : NiriState) : Option WindowEntry :=
  s.windows.find? (fun w => w.is_focused)

/-- NiriState.focused_workspace: first workspace with `is_focused`. -/
def NiriState.focused_workspace (s : NiriState) : Option WorkspaceEntry :=
  s.workspaces.find? (fun w => w.is_focused)

/-- NiriState.focused_output: output of the focused workspace, if any. -/
def NiriState.focused_output (s : NiriState) : Option String :=
  s.focused_workspace.bind (fun w => w.output)

/-- The two matcher shapes (DictKeyMatcher / DictKeyAnyMatcher). -/
inductive Matcher : Type
  | keyMatcher (key : String) (value : PyValue)
  | keyAnyMatcher (key : String) (values : List PyValue)
deriving DecidableEq, Repr

/-- Matcher.matches over a record given its field accessor. -/
def Matcher.matchesWith {ρ : Type} (get : ρ → String → PyValue) (m : Matcher) (item : ρ) : Bool :=
  match m with
  | .keyMatcher k v => pyEq (get item k) v
  | .keyAnyMatcher k vs => vs.any (fun v => pyEq (get item k) v)

/-- filter_by_dict: keep the records matched by every rule (logical AND). -/
def filter_by_dict {ρ : Type} (get : ρ → String → PyValue) (d : List ρ)
    (filters : List Matcher) : List ρ :=
  d.filter (fun item => filters.all (fun m => m.matchesWith get item))

/-- MIN = -sys.maxsize - 1 on a 64-bit CPython. -/
def MIN : Int := -9223372036854775808

/-- MAX = sys.maxsize on a 64-bit CPython. -/
def MAX : Int := 9223372036854775807

/-- mapE: monadic map in `Except Unit`, stopping at the first failure
(Python evaluates `sorted`'s key function on each element in order and an
exception aborts the whole call). -/
def mapE {α β : Type} (f : α → Except Unit β) : List α → Except Unit (List β)
  | [] => .ok []
  | x :: xs =>
    match f x with
    | .error e => .error e
    | .ok y =>
      match mapE f xs with
      | .error e => .error e
      | .ok ys => .ok (y :: ys)

/-- insertE: insert `x` into an already sorted list, walking past every `y`
with `lt y x = true` (so `x` lands before the first element not strictly
below it — the stable position for an element arriving from the left). A
comparison raising `TypeError` aborts the sort. -/
def insertE {β : Type} (lt : β → β → Except Unit Bool) (x : β) : List β → Except Unit (List β)
  | [] => .ok [x]
  | y :: ys =>
    match lt y x with
    | .error e => .error e
    | .ok true =>
      match insertE lt x ys with
      | .error e => .error e
      | .ok r => .ok (y :: r)
    | .ok false => .ok (x :: y :: ys)

/-- sortE: stable insertion sort with a partial (exception-throwing)
strict comparator, modelling Python `sorted`'s use of `<` on keys. -/
def sortE {β : Type} (lt : β → β → Except Unit Bool) : List β → Except Unit (List β)
  | [] => .ok []
  | x :: xs =>
    match sortE lt xs with
    | .error e => .error e
    | .ok l => insertE lt x l

/-- decorateKey: pair an element with its computed key, propagating a key
computation failure. -/
def decorateKey {α κ : Type} (key : α → Except Unit κ) (x : α) : Except Unit (κ × α) :=
  match key x with
  | .error e => .error e
  | .ok k => .ok (k, x)

/-- sortByKeyE: Python `sorted(xs, key=key)`: first compute the key of every
element (in input order; a `KeyError` aborts), then sort the decorated list
comparing keys only, then drop the keys. -/
def sortByKeyE {α κ : Type} (key : α → Except Unit κ) (lt : κ → κ → Except Unit Bool)
    (xs : List α) : Except Unit (List α) :=
  match mapE (decorateKey key) xs with
  | .error e => .error e
  | .ok d =>
    match sortE (fun p q => lt p.1 q.1) d with
    | .error e => .error e
    | .ok s => .ok (s.map Prod.snd)

/-- Equality of `Except` values is decidable (used only to evaluate the
embedding on concrete snapshots via `decide`). -/
instance exceptDecEq {ε α : Type} [DecidableEq ε] [DecidableEq α] : DecidableEq (Except ε α)
  | .error e, .error f =>
    if h : e = f then .isTrue (by rw [h]) else .isFalse (by simp [h])
  | .error _, .ok _ => .isFalse (by simp)
  | .ok _, .error _ => .isFalse (by simp)
  | .ok a, .ok b =>
    if h : a = b then .isTrue (by rw [h]) else .isFalse (by simp [h])

/-- Python `==` on two optional strings (`None == None` is `True`,
`None == "x"` is `False`). -/
def pyEqOptStr : Option String → Option String → Bool
  | Option.none, Option.none => true
  | some a, some b => a == b
  | _, _ => false

/-- Lexicographic-by-code-point comparison of character lists, the order
Python uses for `str < str`. -/
def charListLt : List Char → List Char → Bool
  | _, [] => false
  | [], _ :: _ => true
  | a :: as, b :: bs =>
    if a.val < b.val then true
    else if b.val < a.val then false
    else charListLt as bs

/-- Python `<` on two strings (code-point lexicographic). -/
def pyStrLt (a b : String) : Bool := charListLt a.data b.data

/-- Python `<` on two optional strings: defined for two `str`s
(lexicographic), but raises `TypeError` whenever a `None` is involved. -/
def pyLtOptStr : Option String → Option String → Except Unit Bool
  | some a, some b => .ok (pyStrLt a b)
  | _, _ => .error ()

/-- The window sort key tuple
`(workspace_prio, window_prio, output_prio, output, workspace idx, id)`. -/
structure WKey : Type where
  workspace_prio : Int
  window_prio : Int
  output_prio : Int
  output : Option String
  ws_idx : Int
  win_id : Int
deriving DecidableEq, Repr

/-- Python tuple `<` on two window keys: compare component-wise, deciding at
the first unequal component; comparing a present `output` with an absent one
raises `TypeError`. -/
def ltWKey (a b : WKey) : Except Unit Bool :=
  if a.workspace_prio ≠ b.workspace_prio then .ok (decide (a.workspace_prio < b.workspace_prio))
  else if a.window_prio ≠ b.window_prio then .ok (decide (a.window_prio < b.window_prio))
  else if a.output_prio ≠ b.output_prio then .ok (decide (a.output_prio < b.output_prio))
  else if pyEqOptStr a.output b.output = false then pyLtOptStr a.output b.output
  else if a.ws_idx ≠ b.ws_idx then .ok (decide (a.ws_idx < b.ws_idx))
  else .ok (decide (a.win_id < b.win_id))

/-- The workspace sort key tuple `(focus_prio, output_prio, output, idx)`. -/
structure WsKey : Type where
  focus_prio : Int
  output_prio : Int
  output : Option String
  ws_idx : Int
deriving DecidableEq, Repr

/-- Python tuple `<` on two workspace keys. -/
def ltWsKey (a b : WsKey) : Except Unit Bool :=
  if a.focus_prio ≠ b.focus_prio then .ok (decide (a.focus_prio < b.focus_prio))
  else if a.output_prio ≠ b.output_prio then .ok (decide (a.output_prio < b.output_prio))
  else if pyEqOptStr a.output b.output = false then pyLtOptStr a.output b.output
  else .ok (decide (a.ws_idx < b.ws_idx))

/-- `self.workspace_id_map = {w["id"]: w for w in workspaces}` followed by a
lookup; a duplicated id keeps the last record, as a Python dict does. -/
def workspace_id_map (workspaces : List WorkspaceEntry) (i : Int) : Option WorkspaceEntry :=
  workspaces.foldl (fun acc w => if w.id = i then some w else acc) Option.none

/-- `self.window_id_map = {w["id"]: w for w in windows}` followed by a lookup. -/
def window_id_map (windows : List WindowEntry) (i : Int) : Option WindowEntry :=
  windows.foldl (fun acc w => if w.id = i then some w else acc) Option.none

/-- The `sort_key` closure of WindowHandler.__init__;
`self.workspace_id_map[w["workspace_id"]]` raises `KeyError` when the id is
unknown, hence the `Except`. -/
def windowSortKey (niri : NiriState) (select_focused : Bool) (w : WindowEntry) :
    Except Unit WKey :=
  match workspace_id_map niri.workspaces w.workspace_id with
  | Option.none => .error ()
  | some workspace =>
    let output := workspace.output
    let window_prio : Int :=
      if select_focused then (if w.is_focused then MIN else 0)
      else (if w.is_focused then 0 else MIN)
    let workspace_prio : Int :=
      if workspace.is_focused then MIN
      else if workspace.is_active then MIN + 1
      else 0
    let output_prio : Int := if output = niri.focused_output then MIN else 0
    .ok ⟨workspace_prio, window_prio, output_prio, output, workspace.idx, w.id⟩

/-- The `sort_key` closure of WorkspaceHandler.__init__ (total: it performs
no dictionary indexing). -/
def workspaceSortKey (niri : NiriState) (select_focused : Bool) (w : WorkspaceEntry) : WsKey :=
  let focus_prio : Int :=
    if w.is_focused then (if select_focused then -2 else MAX)
    else if w.is_active then -1
    else 0
  let output_prio : Int := if w.output = niri.focused_output then -1 else 0
  ⟨focus_prio, output_prio, w.output, w.idx⟩

/-- The window list actually ranked: `windows = filter_by_dict(...)` is only
applied when the filter list is non-empty (Python truthiness of the list). -/
def windowCandidates (niri : NiriState) (window_filters : List Matcher) : List WindowEntry :=
  if window_filters.isEmpty then niri.windows
  else filter_by_dict WindowEntry.get niri.windows window_filters

/-- WindowHandler._entry_to_dmenu. Python's
`workspace.get("name") or str(workspace["idx"])` falls back to the idx when
the name is missing OR the empty string, and
`if self.multiple_outputs and (output := workspace.get("output"))` skips an
absent or empty output. -/
def entry_to_dmenu (wmapGet : Int → Option WorkspaceEntry)
    (multiple_workspaces multiple_outputs : Bool) (entry : WindowEntry) : String :=
  let entry_dmenu := entry.title
  let entry_dmenu := if entry.is_focused then "* " ++ entry_dmenu else entry_dmenu
  match multiple_workspaces, wmapGet entry.workspace_id with
  | true, some workspace =>
    let workspace_name :=
      match workspace.name with
      | some n => if n = "" then toString workspace.idx else n
      | Option.none => toString workspace.idx
    let workspace_name :=
      if multiple_outputs then
        match workspace.output with
        | some o => if o = "" then workspace_name else workspace_name ++ " / " ++ o
        | Option.none => workspace_name
      else workspace_name
    entry_dmenu ++ " (@" ++ workspace_name ++ ")"
  | _, _ => entry_dmenu

/-- The state WindowHandler.__init__ leaves behind. -/
structure WindowHandler : Type where
  windows : List WindowEntry
  multiple_workspaces : Bool
  multiple_outputs : Bool
  dmenu_prompt : String
  dmenu_entries : List String
  dmenu_selected : Option String
deriving DecidableEq, Repr

/-- WindowHandler.__init__: filter, rank (can raise `KeyError` on an unknown
workspace id or `TypeError` on an incomparable key pair), compute the
set-wide ambiguity flags, render the labels and the pre-selected label. -/
def WindowHandler.make (niri : NiriState) (select_focused : Bool)
    (window_filters : List Matcher) : Except Unit WindowHandler :=
  match sortByKeyE (windowSortKey niri select_focused) ltWKey
      (windowCandidates niri window_filters) with
  | .error e => .error e
  | .ok ws =>
    match mapE (fun w =>
        match workspace_id_map niri.workspaces w.workspace_id with
        | some wsp => .ok wsp.output
        | Option.none => .error ()) ws with
    | .error e => .error e
    | .ok outs =>
      let multiple_workspaces := decide (1 < (ws.map (fun w => w.workspace_id)).dedup.length)
      let multiple_outputs := decide (1 < outs.dedup.length)
      .ok { windows := ws
            multiple_workspaces := multiple_workspaces
            multiple_outputs := multiple_outputs
            dmenu_prompt := "Window"
            dmenu_entries := ws.map (entry_to_dmenu (workspace_id_map niri.workspaces)
              multiple_workspaces multiple_outputs)
            dmenu_selected :=
              if select_focused then
                niri.focused_window.map (entry_to_dmenu (workspace_id_map niri.workspaces)
                  multiple_workspaces multiple_outputs)
              else Option.none }

/-- WorkspaceHandler._entry_to_dmenu. `entry.get("name") or entry["idx"]`
falls back to the idx for a missing or empty name; the output is appended
only when `multiple_outputs` holds and the output is present and non-empty;
the active window's title defaults to `(empty)`. -/
def ws_entry_to_dmenu (widGet : Int → Option WindowEntry) (multiple_outputs : Bool)
    (entry : WorkspaceEntry) : String :=
  let entry_name :=
    match entry.name with
    | some n => if n = "" then toString entry.idx else n
    | Option.none => toString entry.idx
  let entry_dmenu := "@" ++ entry_name
  let entry_dmenu := if entry.is_focused then "* " ++ entry_dmenu else entry_dmenu
  let entry_dmenu :=
    if multiple_outputs then
      match entry.output with
      | some o => if o = "" then entry_dmenu else entry_dmenu ++ " / " ++ o
      | Option.none => entry_dmenu
    else entry_dmenu
  let title :=
    match widGet entry.active_window_id with
    | some w => w.title
    | Option.none => "(empty)"
  entry_dmenu ++ " -- " ++ title

/-- The state WorkspaceHandler.__init__ leaves behind. -/
structure WorkspaceHandler : Type where
  workspaces : List WorkspaceEntry
  multiple_outputs : Bool
  dmenu_prompt : String
  dmenu_entries : List String
  dmenu_selected : Option String
deriving DecidableEq, Repr

/-- WorkspaceHandler.__init__: rank all workspaces (comparison can raise
`TypeError`), compute the ambiguity flag, render labels. -/
def WorkspaceHandler.make (niri : NiriState) (select_focused : Bool) :
    Except Unit WorkspaceHandler :=
  match sortByKeyE (fun w => .ok (workspaceSortKey niri select_focused w)) ltWsKey
      niri.workspaces with
  | .error e => .error e
  | .ok wss =>
    let multiple_outputs := decide (1 < (wss.map (fun w => w.output)).dedup.length)
    .ok { workspaces := wss
          multiple_outputs := multiple_outputs
          dmenu_prompt := "Workspace"
          dmenu_entries := wss.map (ws_entry_to_dmenu (window_id_map niri.windows)
            multiple_outputs)
          dmenu_selected :=
            if select_focused then
              niri.focused_workspace.map (ws_entry_to_dmenu (window_id_map niri.windows)
                multiple_outputs)
            else Option.none }

/-- Python list indexing `l[i]`: a negative index counts from the end;
anything outside `[-len, len)` raises `IndexError`. -/
def pyIndex {α : Type} (l : List α) (i : Int) : Except Unit α :=
  let j : Int := if i < 0 then i + l.length else i
  if 0 ≤ j then
    match l.get? j.toNat with
    | some x => .ok x
    | Option.none => .error ()
  else .error ()

/-- The `niri msg action ...` calls a selection can issue. -/
inductive NiriAction : Type
  | focusWindow (id : Int)
  | focusMonitor (output : String)
  | focusWorkspace (idx : Int)
deriving DecidableEq, Repr

/-- WindowHandler.select: index into the ranked list (Python semantics) and
issue one focus-window action. -/
def WindowHandler.select (h : WindowHandler) (idx : Int) : Except Unit (List NiriAction) :=
  match pyIndex h.windows idx with
  | .error e => .error e
  | .ok entry => .ok [NiriAction.focusWindow entry.id]

/-- WorkspaceHandler.select: index into the ranked list, focus the monitor
first when the workspace's output is present and non-empty (Python
`if output := entry.get("output")` truthiness), then focus the workspace by
idx. -/
def WorkspaceHandler.select (h : WorkspaceHandler) (idx : Int) : Except Unit (List NiriAction) :=
  match pyIndex h.workspaces idx with
  | .error e => .error e
  | .ok entry =>
    let first :=
      match entry.output with
      | some o => if o = "" then [] else [NiriAction.focusMonitor o]
      | Option.none => []
    .ok (first ++ [NiriAction.focusWorkspace entry.idx])

/-- The key preorder the window comparator refines: lexicographic on the
first two components `(workspace_prio, window_prio)`. -/
def WKeyLe (a b : WKey) : Prop :=
  a.workspace_prio < b.workspace_prio ∨
    (a.workspace_prio = b.workspace_prio ∧ a.window_prio ≤ b.window_prio)

/-- The key preorder the workspace comparator refines: ordered by
`focus_prio`. -/
def WsKeyLe (a b : WsKey) : Prop := a.focus_prio ≤ b.focus_prio

/-- The window filters contributed by the `--app-id` argument: `@focused`
expands to the focused window's app id (no filter when there is no focused
window — the state substitution below takes over), any other string is a
literal equality filter. -/
def appIdFilters (niri : NiriState) (appId : Option String) : List Matcher :=
  match appId with
  | Option.none => []
  | some s =>
    if s = "@focused" then
      match niri.focused_window with
      | some fw => [Matcher.keyMatcher "app_id" (PyValue.str fw.app_id)]
      | Option.none => []
    else [Matcher.keyMatcher "app_id" (PyValue.str s)]

/-- The `niri = NiriState(windows=[], workspaces=[])` substitution performed
by `main` when `--app-id @focused` finds no focused window. -/
def effectiveNiri (niri : NiriState) (appId : Option String) : NiriState :=
  if appId = some "@focused" ∧ niri.focused_window = Option.none then ⟨[], []⟩ else niri

/-- A parsed `--workspace` selector argument: one of the three reserved
tokens, or a JSON dict already decoded to key/value pairs (the JSON-string
decoding itself is argument-parsing glue). -/
inductive WsSelector : Type
  | focusedTok
  | activeTok
  | outputTok
  | dict (kvs : List (String × PyValue))
deriving DecidableEq, Repr

/-- The workspace matchers a selector expands to, `Option.none` when `main`
takes the `Invalid match rule for workspace` exit instead: `@output` with a
missing (or empty, hence falsy) focused output falls through the guard, and
an empty JSON dict is falsy so it also falls to the catch-all. -/
def selectorMatchers (niri : NiriState) : WsSelector → Option (List Matcher)
  | .focusedTok => some [Matcher.keyMatcher "is_focused" (PyValue.bool true)]
  | .activeTok => some [Matcher.keyMatcher "is_active" (PyValue.bool true)]
  | .outputTok =>
    match niri.focused_output with
    | some o => if o = "" then Option.none else some [Matcher.keyAnyMatcher "output" [PyValue.str o]]
    | Option.none => Option.none
  | .dict kvs =>
    if kvs.isEmpty then Option.none
    else some (kvs.map (fun kv => Matcher.keyMatcher kv.1 kv.2))

/-- The workspaces a selector resolves to (when its matchers are valid). -/
def resolveWorkspaces (niri : NiriState) (sel : WsSelector) : Option (List WorkspaceEntry) :=
  (selectorMatchers niri sel).map (fun ms => filter_by_dict WorkspaceEntry.get niri.workspaces ms)

/-- Python truthiness applied to `handler.dmenu_selected` before passing
`--select` to fuzzel (an empty string is falsy). -/
def truthyStr : Option String → Option String
  | some s => if s = "" then Option.none else some s
  | Option.none => Option.none

/-- How a run of `main --windows` ends, up to the point the picker would
block: it aborts with an exit code before showing any UI, or it reaches the
fuzzel invocation with a label list and an optional pre-selection, or it
crashes with an uncaught Python exception. -/
inductive MainOutcome : Type
  | abort (code : Int)
  | invokePicker (entries : List String) (selected : Option String)
  | err
deriving DecidableEq, Repr

/-- The `--windows` branch of `main`: expand the `--app-id` argument
(substituting an empty snapshot for `@focused` without a focused window),
add the `--window-matching` filters, translate the `--workspace` selector
into a `workspace_id` filter — aborting with exit code 1 when it is invalid
or resolves to zero workspaces — build the WindowHandler, and hand the
labels to the picker. -/
def mainWindows (niri0 : NiriState) (select_focused : Bool) (appId : Option String)
    (windowMatching : Option (List (String × PyValue))) (wsSel : Option WsSelector) :
    MainOutcome :=
  let niri := effectiveNiri niri0 appId
  let window_filters := appIdFilters niri0 appId ++
    (match windowMatching with
     | some kvs => kvs.map (fun kv => Matcher.keyMatcher kv.1 kv.2)
     | Option.none => [])
  match wsSel with
  | Option.none =>
    (match WindowHandler.make niri select_focused window_filters with
     | .ok h => .invokePicker h.dmenu_entries (truthyStr h.dmenu_selected)
     | .error _ => .err)
  | some sel =>
    match selectorMatchers niri sel with
    | Option.none => .abort 1
    | some ms =>
      let ids := (filter_by_dict WorkspaceEntry.get niri.workspaces ms).map (fun w => w.id)
      if ids.isEmpty then .abort 1
      else
        (match WindowHandler.make niri select_focused
            (window_filters ++ [Matcher.keyAnyMatcher "workspace_id" (ids.map PyValue.int)]) with
         | .ok h => .invokePicker h.dmenu_entries (truthyStr h.dmenu_selected)
         | .error _ => .err)

/-- Spec-side window label (spec section 4.4, with the amendment forced by
the code: a present-but-empty `name` falls back to the idx, and a
present-but-empty `output` is not appended). Written from the spec's words
for comparison with the implementation's `entry_to_dmenu`. -/
def specWindowLabel (multiple_workspaces multiple_outputs : Bool) (workspace : WorkspaceEntry)
    (entry : WindowEntry) : String :=
  let base := if entry.is_focused then "* " ++ entry.title else entry.title
  if multiple_workspaces then
    let nameOrIdx :=
      match workspace.name with
      | some n => if n = "" then toString workspace.idx else n
      | Option.none => toString workspace.idx
    let detail :=
      if multiple_outputs then
        match workspace.output with
        | some o => if o = "" then nameOrIdx else nameOrIdx ++ " / " ++ o
        | Option.none => nameOrIdx
      else nameOrIdx
    base ++ " (@" ++ detail ++ ")"
  else base

/-- Scenario A window: the single focused window titled `A`. -/
def scenAW : WindowEntry := ⟨1, "A", "x", 10, true, false⟩

/-- Scenario A workspace. -/
def scenAWs : WorkspaceEntry := ⟨10, 1, Option.none, Option.none, true, true, 1⟩

/-- Scenario A snapshot from the spec's testable properties. -/
def scenANiri : NiriState := ⟨[scenAW], [scenAWs]⟩

/-- The WindowHandler Scenario A builds. -/
def scenAHandler : WindowHandler :=
  ⟨[scenAW], false, false, "Window", ["* A"], some "* A"⟩

/-- A focused window that lives on a NON-focused workspace (id 20). -/
def c1xW1 : WindowEntry := ⟨1, "A", "x", 20, true, false⟩

/-- A non-focused window on the focused workspace (id 10). -/
def c1xW2 : WindowEntry := ⟨2, "B", "y", 10, false, false⟩

/-- The focused workspace of the C1 counterexample. -/
def c1xWs10 : WorkspaceEntry := ⟨10, 1, Option.none, Option.none, true, true, 2⟩

/-- The non-focused workspace holding the focused window. -/
def c1xWs20 : WorkspaceEntry := ⟨20, 2, Option.none, Option.none, false, false, 1⟩

/-- Snapshot where the unique focused window sits on a non-focused
workspace while another candidate sits on the focused workspace. -/
def c1xNiri : NiriState := ⟨[c1xW1, c1xW2], [c1xWs10, c1xWs20]⟩

/-- Focused window of the C1 witness snapshot. -/
def c1wW1 : WindowEntry := ⟨1, "A", "x", 10, true, false⟩

/-- Second, non-focused window of the C1 witness snapshot. -/
def c1wW2 : WindowEntry := ⟨2, "B", "y", 10, false, false⟩

/-- The focused workspace of the C1 witness snapshot. -/
def c1wWs10 : WorkspaceEntry := ⟨10, 1, Option.none, Option.none, true, true, 1⟩

/-- Snapshot with the focused window on the focused workspace plus one
other candidate. -/
def c1wNiri : NiriState := ⟨[c1wW1, c1wW2], [c1wWs10]⟩

/-- Handler built from `c1wNiri` with `select_focused = true`. -/
def c1wHandlerT : WindowHandler :=
  ⟨[c1wW1, c1wW2], false, false, "Window", ["* A", "B"], some "* A"⟩

/-- Handler built from `c1wNiri` with `select_focused = false`. -/
def c1wHandlerF : WindowHandler :=
  ⟨[c1wW2, c1wW1], false, false, "Window", ["B", "* A"], Option.none⟩

/-- Focused workspace of the C2 witness snapshot. -/
def c2WsF : WorkspaceEntry := ⟨10, 1, Option.none, Option.none, true, true, 1⟩

/-- Other workspace of the C2 witness snapshot. -/
def c2WsO : WorkspaceEntry := ⟨20, 2, Option.none, Option.none, false, false, 99⟩

/-- Two-workspace snapshot with a unique focused workspace. -/
def c2Niri : NiriState := ⟨[], [c2WsF, c2WsO]⟩

/-- Handler built from `c2Niri` with `select_focused = true`. -/
def c2HandlerT : WorkspaceHandler :=
  ⟨[c2WsF, c2WsO], false, "Workspace", ["* @1 -- (empty)", "@2 -- (empty)"],
    some "* @1 -- (empty)"⟩

/-- Handler built from `c2Niri` with `select_focused = false`. -/
def c2HandlerF : WorkspaceHandler :=
  ⟨[c2WsO, c2WsF], false, "Workspace", ["@2 -- (empty)", "* @1 -- (empty)"], Option.none⟩

/-- A workspace with NO output. -/
def c3WsA : WorkspaceEntry := ⟨1, 1, Option.none, Option.none, false, false, 0⟩

/-- A workspace WITH an output, tying with `c3WsA` on every priority. -/
def c3WsB : WorkspaceEntry := ⟨2, 2, Option.none, some "DP-1", false, false, 0⟩

/-- The focused workspace, giving the snapshot a focused output. -/
def c3WsC : WorkspaceEntry := ⟨3, 3, Option.none, some "eDP-1", true, true, 0⟩

/-- Window on the output-less workspace. -/
def c3W1 : WindowEntry := ⟨1, "W1", "a", 1, false, false⟩

/-- Window on the workspace with an output. -/
def c3W2 : WindowEntry := ⟨2, "W2", "b", 2, false, false⟩

/-- Snapshot mixing an absent and a present output among candidates that tie
on all three integer priorities, so the sort must compare `None` with a
`str`. -/
def c3Niri : NiriState := ⟨[c3W1, c3W2], [c3WsA, c3WsB, c3WsC]⟩

/-- A workspace whose `name` is present but EMPTY, and whose `output` is
present but EMPTY. -/
def c4WsE : WorkspaceEntry := ⟨1, 1, some "", some "", false, false, 0⟩

/-- A second workspace on a real output. -/
def c4WsD : WorkspaceEntry := ⟨2, 2, Option.none, some "DP-1", false, false, 0⟩

/-- Window on the empty-named workspace. -/
def c4W1 : WindowEntry := ⟨1, "WA", "a", 1, false, false⟩

/-- Window on the second workspace. -/
def c4W2 : WindowEntry := ⟨2, "WB", "b", 2, false, false⟩

/-- Snapshot spanning two workspaces and two outputs, one workspace having
an empty name and an empty output. -/
def c4Niri : NiriState := ⟨[c4W1, c4W2], [c4WsE, c4WsD]⟩

/-- Snapshot with one window and one workspace but NO focused window. -/
def c5Niri : NiriState :=
  ⟨[⟨1, "T", "z", 10, false, false⟩], [⟨10, 1, Option.none, Option.none, true, false, 1⟩]⟩

/-- Snapshot whose only workspace lives on output `DP-1`. -/
def c6Niri : NiriState :=
  ⟨[], [⟨1, 1, Option.none, some "DP-1", true, true, 0⟩]⟩

/-- A workspace whose `output` is present but empty. -/
def c8Ws : WorkspaceEntry := ⟨1, 1, Option.none, some "", false, false, 0⟩

/-- Snapshot for the C8 counterexample. -/
def c8Niri : NiriState := ⟨[], [c8Ws]⟩

/-- Handler built from `c8Niri`. -/
def c8Handler : WorkspaceHandler :=
  ⟨[c8Ws], false, "Workspace", ["@1 -- (empty)"], Option.none⟩

/-- The focused window of the C10 snapshot (app id `a`). -/
def c10W1 : WindowEntry := ⟨1, "A", "a", 10, true, false⟩

/-- The other window of the C10 snapshot (app id `b`). -/
def c10W2 : WindowEntry := ⟨2, "B", "b", 10, false, false⟩

/-- The single workspace of the C10 snapshot. -/
def c10Ws : WorkspaceEntry := ⟨10, 1, Option.none, Option.none, true, true, 1⟩

/-- Snapshot where an app-id filter excludes the focused window. -/
def c10Niri : NiriState := ⟨[c10W1, c10W2], [c10Ws]⟩

/-- Handler built from `c10Niri` with the app-id filter `b`: the focused
window is not a candidate, yet the pre-selected label renders it. -/
def c10Handler : WindowHandler :=
  ⟨[c10W2], false, false, "Window", ["B"], some "* A"⟩

/-- A window referencing the unknown workspace id 99. -/
def c9W : WindowEntry := ⟨1, "A", "x", 99, false, false⟩

/-- Snapshot whose only window references a workspace id that no workspace
record carries. -/
def c9Niri : NiriState := ⟨[c9W], [⟨10, 1, Option.none, Option.none, true, true, 1⟩]⟩

/-- Handler the C1 counterexample snapshot builds: the focused window is
ranked second because workspace priority dominates window priority. -/
def c1xHandler : WindowHandler :=
  ⟨[c1xW2, c1xW1], true, false, "Window", ["B (@1)", "* A (@2)"], some "* A (@2)"⟩

/-- Handler the C4 counterexample snapshot builds. -/
def c4Handler : WindowHandler :=
  ⟨[c4W1, c4W2], true, true, "Window", ["WA (@1)", "WB (@2 / DP-1)"], Option.none⟩

/-- A successful `mapE` over the key-decorating function recovers the input
as the second components, and every pair carries its element's key. -/
theorem mapE_decorate_ok {α κ : Type} {key : α → Except Unit κ} :
    ∀ {xs : List α} {d : List (κ × α)},
      mapE (decorateKey key) xs = .ok d →
      d.map Prod.snd = xs ∧ ∀ p ∈ d, key p.2 = .ok p.1 := by
  intro xs
  induction xs with
  | nil =>
    intro d h
    simp [mapE] at h
    subst h
    simp
  | cons x xs ih =>
    intro d h
    simp only [mapE, decorateKey] at h
    cases hk : key x with
    | error e => rw [hk] at h; exact absurd h (by simp)
    | ok k =>
      rw [hk] at h
      cases hm : mapE (decorateKey key) xs with
      | error e => rw [hm] at h; exact absurd h (by simp)
      | ok d' =>
        rw [hm] at h
        simp only [Except.ok.injEq] at h
        subst h
        obtain ⟨h1, h2⟩ := ih hm
        refine ⟨by simp [h1], ?_⟩
        intro p hp
        rcases List.mem_cons.mp hp with hp | hp
        · subst hp; exact hk
        · exact h2 p hp

/-- If some element's function application fails, the whole `mapE` fails. -/
theorem mapE_error_of_mem {α β : Type} {f : α → Except Unit β} :
    ∀ {xs : List α} {x : α}, x ∈ xs → f x = .error () → mapE f xs = .error () := by
  intro xs
  induction xs with
  | nil => intro x hx; exact absurd hx (List.not_mem_nil x)
  | cons a as ih =>
    intro x hx hf
    simp only [mapE]
    rcases List.mem_cons.mp hx with hx | hx
    · subst hx; rw [hf]
    · cases hfa : f a with
      | error e => cases e; rfl
      | ok y => rw [ih hx hf]

/-- A successful insertion produces a permutation of the element consed on. -/
theorem insertE_perm {β : Type} {lt : β → β → Except Unit Bool} {x : β} :
    ∀ {l r : List β}, insertE lt x l = .ok r → r.Perm (x :: l) := by
  intro l
  induction l with
  | nil =>
    intro r h
    simp [insertE] at h
    subst h
    exact List.Perm.refl _
  | cons y ys ih =>
    intro r h
    simp only [insertE] at h
    cases hlt : lt y x with
    | error e => rw [hlt] at h; exact absurd h (by simp)
    | ok b =>
      rw [hlt] at h
      cases b with
      | true =>
        cases hr : insertE lt x ys with
        | error e => rw [hr] at h; exact absurd h (by simp)
        | ok r' =>
          rw [hr] at h
          simp only [Except.ok.injEq] at h
          subst h
          exact ((ih hr).cons y).trans (List.Perm.swap x y ys)
      | false =>
        simp only [Except.ok.injEq] at h
        subst h
        exact List.Perm.refl _

/-- A successful sort is a permutation of its input. -/
theorem sortE_perm {β : Type} {lt : β → β → Except Unit Bool} :
    ∀ {xs l : List β}, sortE lt xs = .ok l → l.Perm xs := by
  intro xs
  induction xs with
  | nil =>
    intro l h
    simp [sortE] at h
    subst h
    exact List.Perm.refl _
  | cons x xs ih =>
    intro l h
    simp only [sortE] at h
    cases hs : sortE lt xs with
    | error e => rw [hs] at h; exact absurd h (by simp)
    | ok l' =>
      rw [hs] at h
      exact (insertE_perm h).trans ((ih hs).cons x)

/-- A successful insertion into a `Rle`-pairwise list stays pairwise,
provided the boolean comparator refines `Rle`: a `true` verdict certifies
`Rle` one way, a `false` verdict the other way, and `Rle` is transitive.
No totality of the comparator is assumed. -/
theorem insertE_pairwise {β : Type} {lt : β → β → Except Unit Bool} {Rle : β → β → Prop}
    (Htrue : ∀ a b, lt a b = .ok true → Rle a b)
    (Hfalse : ∀ a b, lt a b = .ok false → Rle b a)
    (Htrans : ∀ a b c, Rle a b → Rle b c → Rle a c) {x : β} :
    ∀ {l r : List β}, insertE lt x l = .ok r → l.Pairwise Rle → r.Pairwise Rle := by
  intro l
  induction l with
  | nil =>
    intro r h _
    simp [insertE] at h
    subst h
    simp
  | cons y ys ih =>
    intro r h hp
    simp only [insertE] at h
    rcases List.pairwise_cons.mp hp with ⟨hy, hys⟩
    cases hlt : lt y x with
    | error e => rw [hlt] at h; exact absurd h (by simp)
    | ok b =>
      rw [hlt] at h
      cases b with
      | true =>
        cases hr : insertE lt x ys with
        | error e => rw [hr] at h; exact absurd h (by simp)
        | ok r' =>
          rw [hr] at h
          simp only [Except.ok.injEq] at h
          subst h
          refine List.pairwise_cons.mpr ⟨?_, ih hr hys⟩
          intro z hz
          rcases List.mem_cons.mp ((insertE_perm hr).mem_iff.mp hz) with hz | hz
          · rw [hz]; exact Htrue y x hlt
          · exact hy z hz
      | false =>
        simp only [Except.ok.injEq] at h
        subst h
        refine List.pairwise_cons.mpr ⟨?_, hp⟩
        intro z hz
        rcases List.mem_cons.mp hz with hz | hz
        · rw [hz]; exact Hfalse y x hlt
        · exact Htrans x y z (Hfalse y x hlt) (hy z hz)

/-- A successful sort is pairwise ordered by any relation the comparator
refines. -/
theorem sortE_pairwise {β : Type} {lt : β → β → Except Unit Bool} {Rle : β → β → Prop}
    (Htrue : ∀ a b, lt a b = .ok true → Rle a b)
    (Hfalse : ∀ a b, lt a b = .ok false → Rle b a)
    (Htrans : ∀ a b c, Rle a b → Rle b c → Rle a c) :
    ∀ {xs l : List β}, sortE lt xs = .ok l → l.Pairwise Rle := by
  intro xs
  induction xs with
  | nil =>
    intro l h
    simp [sortE] at h
    subst h
    simp
  | cons x xs ih =>
    intro l h
    simp only [sortE] at h
    cases hs : sortE lt xs with
    | error e => rw [hs] at h; exact absurd h (by simp)
    | ok l' =>
      rw [hs] at h
      exact insertE_pairwise Htrue Hfalse Htrans h (ih hs)

/-- In a pairwise list, an element strictly below every other element (no
other element relates down to it) is the head. -/
theorem head_of_pairwise_min {β : Type} {R : β → β → Prop} {l : List β} {x : β}
    (hp : l.Pairwise R) (hx : x ∈ l) (hmin : ∀ y ∈ l, R y x → y = x) :
    l.head? = some x := by
  cases l with
  | nil => exact absurd hx (List.not_mem_nil x)
  | cons z zs =>
    rcases List.mem_cons.mp hx with hx | hx
    · subst hx; rfl
    · rcases List.pairwise_cons.mp hp with ⟨hz, _⟩
      have := hmin z (List.mem_cons_self z zs) (hz x hx)
      subst this
      rfl

/-- In a pairwise list, an element strictly above every other element is the
last one. -/
theorem last_of_pairwise_max {β : Type} {R : β → β → Prop} :
    ∀ {l : List β} {x : β}, l.Pairwise R → x ∈ l → (∀ y ∈ l, R x y → y = x) →
      l.getLast? = some x := by
  intro l
  induction l with
  | nil => intro x hp hx; exact absurd hx (List.not_mem_nil x)
  | cons z zs ih =>
    intro x hp hx hmax
    rcases List.pairwise_cons.mp hp with ⟨hz, hzs⟩
    cases zs with
    | nil =>
      rcases List.mem_cons.mp hx with hx | hx
      · subst hx; rfl
      · exact absurd hx (List.not_mem_nil x)
    | cons w ws =>
      rcases List.mem_cons.mp hx with hx | hx
      · subst hx
        have hw : w = x := hmax w (List.mem_cons_of_mem x (List.mem_cons_self w ws))
          (hz w (List.mem_cons_self w ws))
        have : (w :: ws).getLast? = some x := by
          apply ih hzs
          · rw [hw]; exact List.mem_cons_self x ws
          · intro y hy hxy
            exact hmax y (List.mem_cons_of_mem x hy) hxy
        rw [List.getLast?_cons_cons]
        exact this
      · have : (w :: ws).getLast? = some x := by
          apply ih hzs hx
          intro y hy hxy
          exact hmax y (List.mem_cons_of_mem z hy) hxy
        rw [List.getLast?_cons_cons]
        exact this

/-- Master specification of a successful keyed sort: the result is a
permutation of the input, every element's key computes, and the result is
pairwise ordered by any key relation the comparator refines. -/
theorem sortByKeyE_spec {α κ : Type} {key : α → Except Unit κ} {lt : κ → κ → Except Unit Bool}
    (Rle : κ → κ → Prop)
    (Htrue : ∀ a b, lt a b = .ok true → Rle a b)
    (Hfalse : ∀ a b, lt a b = .ok false → Rle b a)
    (Htrans : ∀ a b c, Rle a b → Rle b c → Rle a c)
    {xs l : List α} (h : sortByKeyE key lt xs = .ok l) :
    l.Perm xs ∧ (∀ y ∈ l, ∃ k, key y = .ok k) ∧
      l.Pairwise (fun a b => ∀ ka kb, key a = .ok ka → key b = .ok kb → Rle ka kb) := by
  cases hd : mapE (decorateKey key) xs with
  | error e => simp only [sortByKeyE, hd] at h; exact absurd h (by simp)
  | ok d =>
    cases hs : sortE (fun p q => lt p.1 q.1) d with
    | error e => simp only [sortByKeyE, hd, hs] at h; exact absurd h (by simp)
    | ok s =>
      simp only [sortByKeyE, hd, hs, Except.ok.injEq] at h
      subst h
      obtain ⟨hsnd, hkeys⟩ := mapE_decorate_ok hd
      have hmem : ∀ p ∈ s, key p.2 = .ok p.1 := fun p hp =>
        hkeys p ((sortE_perm hs).mem_iff.mp hp)
      refine ⟨?_, ?_, ?_⟩
      · have := (sortE_perm hs).map Prod.snd
        rwa [hsnd] at this
      · intro y hy
        rcases List.mem_map.mp hy with ⟨p, hp, hpy⟩
        exact ⟨p.1, hpy ▸ hmem p hp⟩
      · have hpw : s.Pairwise (fun p q => Rle p.1 q.1) :=
          sortE_pairwise (fun a b hab => Htrue a.1 b.1 hab)
            (fun a b hab => Hfalse a.1 b.1 hab)
            (fun a b c => Htrans a.1 b.1 c.1) hs
        apply List.pairwise_map.mpr
        apply hpw.imp_of_mem
        intro p q hp hq hpq ka kb hka hkb
        have h1 : ka = p.1 := by
          have h' := hmem p hp
          rw [hka] at h'
          exact Except.ok.inj h'
        have h2 : kb = q.1 := by
          have h' := hmem q hq
          rw [hkb] at h'
          exact Except.ok.inj h'
        rw [h1, h2]
        exact hpq

/-- A `true` verdict of the window comparator certifies `WKeyLe`. -/
theorem ltWKey_true_le (a b : WKey) (h : ltWKey a b = .ok true) : WKeyLe a b := by
  unfold ltWKey at h
  unfold WKeyLe
  split at h
  · rename_i h1
    simp only [Except.ok.injEq, decide_eq_true_eq] at h
    exact Or.inl h
  · rename_i h1
    rw [not_ne_iff] at h1
    split at h
    · rename_i h2
      simp only [Except.ok.injEq, decide_eq_true_eq] at h
      exact Or.inr ⟨h1, le_of_lt h⟩
    · rename_i h2
      rw [not_ne_iff] at h2
      exact Or.inr ⟨h1, le_of_eq h2⟩

/-- A `false` verdict of the window comparator certifies `WKeyLe`
backwards. -/
theorem ltWKey_false_le (a b : WKey) (h : ltWKey a b = .ok false) : WKeyLe b a := by
  unfold ltWKey at h
  unfold WKeyLe
  split at h
  · rename_i h1
    simp only [Except.ok.injEq, decide_eq_false_iff_not, not_lt] at h
    exact Or.inl (lt_of_le_of_ne h (fun hc => h1 hc.symm))
  · rename_i h1
    rw [not_ne_iff] at h1
    split at h
    · rename_i h2
      simp only [Except.ok.injEq, decide_eq_false_iff_not, not_lt] at h
      exact Or.inr ⟨h1.symm, h⟩
    · rename_i h2
      rw [not_ne_iff] at h2
      exact Or.inr ⟨h1.symm, le_of_eq h2.symm⟩

/-- `WKeyLe` is transitive. -/
theorem wKeyLe_trans (a b c : WKey) (hab : WKeyLe a b) (hbc : WKeyLe b c) : WKeyLe a c := by
  unfold WKeyLe at *
  omega

/-- A `true` verdict of the workspace comparator certifies `WsKeyLe`. -/
theorem ltWsKey_true_le (a b : WsKey) (h : ltWsKey a b = .ok true) : WsKeyLe a b := by
  unfold ltWsKey at h
  unfold WsKeyLe
  split at h
  · rename_i h1
    simp only [Except.ok.injEq, decide_eq_true_eq] at h
    exact le_of_lt h
  · rename_i h1
    rw [not_ne_iff] at h1
    exact le_of_eq h1

/-- A `false` verdict of the workspace comparator certifies `WsKeyLe`
backwards. -/
theorem ltWsKey_false_le (a b : WsKey) (h : ltWsKey a b = .ok false) : WsKeyLe b a := by
  unfold ltWsKey at h
  unfold WsKeyLe
  split at h
  · rename_i h1
    simp only [Except.ok.injEq, decide_eq_false_iff_not, not_lt] at h
    exact h
  · rename_i h1
    rw [not_ne_iff] at h1
    exact le_of_eq h1.symm

/-- `WsKeyLe` is transitive. -/
theorem wsKeyLe_trans (a b c : WsKey) (hab : WsKeyLe a b) (hbc : WsKeyLe b c) : WsKeyLe a c :=
  le_trans hab hbc

/-- Inversion of a successful window key computation: the workspace lookup
succeeded and the key components are exactly the source's expressions. -/
theorem windowSortKey_ok_elim {niri : NiriState} {sf : Bool} {w : WindowEntry} {k : WKey}
    (h : windowSortKey niri sf w = .ok k) :
    ∃ wsp, workspace_id_map niri.workspaces w.workspace_id = some wsp ∧
      k = ⟨(if wsp.is_focused then MIN else if wsp.is_active then MIN + 1 else 0),
           (if sf then (if w.is_focused then MIN else 0) else (if w.is_focused then 0 else MIN)),
           (if wsp.output = niri.focused_output then MIN else 0),
           wsp.output, wsp.idx, w.id⟩ := by
  unfold windowSortKey at h
  cases hl : workspace_id_map niri.workspaces w.workspace_id with
  | none => rw [hl] at h; exact absurd h (by simp)
  | some wsp =>
    rw [hl] at h
    simp only [Except.ok.injEq] at h
    exact ⟨wsp, rfl, h.symm⟩

/-- Inversion of a successful WindowHandler construction, exposing how every
field was computed. -/
theorem windowHandler_make_elim {niri : NiriState} {sf : Bool} {fs : List Matcher}
    {h : WindowHandler} (hmk : WindowHandler.make niri sf fs = .ok h) :
    sortByKeyE (windowSortKey niri sf) ltWKey (windowCandidates niri fs) = .ok h.windows ∧
    h.dmenu_entries = h.windows.map (entry_to_dmenu (workspace_id_map niri.workspaces)
      h.multiple_workspaces h.multiple_outputs) ∧
    h.dmenu_selected = (if sf then
        niri.focused_window.map (entry_to_dmenu (workspace_id_map niri.workspaces)
          h.multiple_workspaces h.multiple_outputs)
      else Option.none) := by
  unfold WindowHandler.make at hmk
  split at hmk
  · exact absurd hmk (by simp)
  · rename_i ws hs
    split at hmk
    · exact absurd hmk (by simp)
    · rename_i outs ho
      simp only [Except.ok.injEq] at hmk
      subst hmk
      exact ⟨hs, rfl, rfl⟩

/-- Inversion of a successful WorkspaceHandler construction. -/
theorem workspaceHandler_make_elim {niri : NiriState} {sf : Bool} {g : WorkspaceHandler}
    (hmk : WorkspaceHandler.make niri sf = .ok g) :
    sortByKeyE (fun w => .ok (workspaceSortKey niri sf w)) ltWsKey niri.workspaces =
      .ok g.workspaces ∧
    g.dmenu_entries = g.workspaces.map (ws_entry_to_dmenu (window_id_map niri.windows)
      g.multiple_outputs) ∧
    g.dmenu_selected = (if sf then
        niri.focused_workspace.map (ws_entry_to_dmenu (window_id_map niri.windows)
          g.multiple_outputs)
      else Option.none) := by
  unfold WorkspaceHandler.make at hmk
  split at hmk
  · exact absurd hmk (by simp)
  · rename_i wss hs
    simp only [Except.ok.injEq] at hmk
    subst hmk
    exact ⟨hs, rfl, rfl⟩

/-- Python indexing fails exactly outside `[-len, len)`. -/
theorem pyIndex_out_of_range {α : Type} (l : List α) (i : Int)
    (hout : i < -(l.length : Int) ∨ (l.length : Int) ≤ i) : pyIndex l i = .error () := by
  unfold pyIndex
  rcases hout with hout | hout
  · have hi : i < 0 := by omega
    simp only [if_pos hi]
    rw [if_neg (by omega : ¬ (0:Int) ≤ i + l.length)]
  · have hi : ¬ i < 0 := by omega
    simp only [if_neg hi]
    rw [if_pos (by omega : (0:Int) ≤ i)]
    have hnone : l.get? i.toNat = Option.none := by
      apply List.get?_eq_none.mpr
      omega
    rw [hnone]

/-- Python indexing with a non-negative in-range index returns the element. -/
theorem pyIndex_ok {α : Type} (l : List α) (i : Nat) (hi : i < l.length) :
    pyIndex l (i : Int) = .ok (l.get ⟨i, hi⟩) := by
  unfold pyIndex
  have h0 : ¬ (i : Int) < 0 := by omega
  simp only [if_neg h0]
  rw [if_pos (by omega : (0:Int) ≤ (i : Int))]
  have ht : ((i : Int)).toNat = i := by omega
  rw [ht, List.get?_eq_get hi]

/-- Python indexing with a negative in-range index equals indexing at
`i + len`. -/
theorem pyIndex_neg_shift {α : Type} (l : List α) (i : Int)
    (hin : -(l.length : Int) ≤ i ∧ i < 0) : pyIndex l i = pyIndex l (i + l.length) := by
  unfold pyIndex
  simp only [if_pos hin.2]
  rw [if_neg (by omega : ¬ (i + (l.length : Int)) < 0)]

/-- C7 (amended): `select` fails with an index error exactly when the index
falls outside Python's accepted range `[-len, len)`; a negative in-range
index selects from the end (it behaves as `index + len`), so such a call
does issue a focus action. -/
theorem c7_select_bounds (h : WindowHandler) (g : WorkspaceHandler) (i : Int) :
    ((i < -(h.windows.length : Int) ∨ (h.windows.length : Int) ≤ i) →
      h.select i = .error ()) ∧
    ((i < -(g.workspaces.length : Int) ∨ (g.workspaces.length : Int) ≤ i) →
      g.select i = .error ()) ∧
    ((-(h.windows.length : Int) ≤ i ∧ i < 0) →
      h.select i = h.select (i + h.windows.length)) ∧
    ((-(g.workspaces.length : Int) ≤ i ∧ i < 0) →
      g.select i = g.select (i + g.workspaces.length)) := by
  refine ⟨?_, ?_, ?_, ?_⟩
  · intro hout
    unfold WindowHandler.select
    rw [pyIndex_out_of_range h.windows i hout]
  · intro hout
    unfold WorkspaceHandler.select
    rw [pyIndex_out_of_range g.workspaces i hout]
  · intro hin
    unfold WindowHandler.select
    rw [pyIndex_neg_shift h.windows i hin]
  · intro hin
    unfold WorkspaceHandler.select
    rw [pyIndex_neg_shift g.workspaces i hin]

/-- C7 counterexample: on Scenario A's one-window handler, the negative
index `-1` is NOT a fatal input error — it issues a focus action for the
last-ranked window, contradicting the claim that every index outside
`[0, length)` is fatal and issues no action. -/
theorem c7_counterexample :
    WindowHandler.make scenANiri true [] = .ok scenAHandler ∧
    scenAHandler.select (-1) = .ok [NiriAction.focusWindow 1] := by decide

/-- C8 (amended): `select(i)` at a valid non-negative position issues the
action(s) for exactly the record ranked at `i`: one focus-window call with
its id for windows; for workspaces, a focus-monitor call first — only when
the record's output is present AND non-empty — followed by the
focus-workspace call with its idx. -/
theorem c8_round_trip (h : WindowHandler) (g : WorkspaceHandler) (i j : Nat)
    (hi : i < h.windows.length) (hj : j < g.workspaces.length) :
    h.select (i : Int) = .ok [NiriAction.focusWindow (h.windows.get ⟨i, hi⟩).id] ∧
    g.select (j : Int) = .ok ((match (g.workspaces.get ⟨j, hj⟩).output with
        | some o => if o = "" then [] else [NiriAction.focusMonitor o]
        | Option.none => []) ++ [NiriAction.focusWorkspace (g.workspaces.get ⟨j, hj⟩).idx]) := by
  constructor
  · unfold WindowHandler.select
    rw [pyIndex_ok h.windows i hi]
  · unfold WorkspaceHandler.select
    rw [pyIndex_ok g.workspaces j hj]

/-- C8 counterexample: a workspace whose output is present but empty gets NO
focus-monitor call — `select` issues only the focus-workspace action,
contradicting the claim's `only when X has an output` reading. -/
theorem c8_counterexample :
    WorkspaceHandler.make c8Niri false = .ok c8Handler ∧
    c8Handler.workspaces.head? = some c8Ws ∧
    c8Ws.output = some "" ∧
    c8Handler.select 0 = .ok [NiriAction.focusWorkspace 1] := by decide

/-- C3: evaluating the embedding at the failing snapshot — ranking the
windows AND ranking the workspaces both raise (Python `TypeError`: `<` is
not supported between `NoneType` and `str`) instead of succeeding with the
absent output sorted first, for either value of `select_focused`. -/
theorem c3_ranking_totality_failure :
    WindowHandler.make c3Niri true [] = .error () ∧
    WindowHandler.make c3Niri false [] = .error () ∧
    WorkspaceHandler.make c3Niri true = .error () ∧
    WorkspaceHandler.make c3Niri false = .error () := by decide

/-- C9: a candidate window whose `workspace_id` is not among the workspace
records makes the whole WindowHandler construction fail with a lookup
(`KeyError`) failure — the window is neither ranked nor silently skipped. -/
theorem c9_unknown_workspace_id (niri : NiriState) (sf : Bool) (fs : List Matcher)
    (w : WindowEntry) (hmem : w ∈ windowCandidates niri fs)
    (hmiss : workspace_id_map niri.workspaces w.workspace_id = Option.none) :
    WindowHandler.make niri sf fs = .error () := by
  have hkey : windowSortKey niri sf w = .error () := by
    unfold windowSortKey
    rw [hmiss]
  have hdec : mapE (decorateKey (windowSortKey niri sf)) (windowCandidates niri fs) =
      .error () := by
    apply mapE_error_of_mem hmem
    unfold decorateKey
    rw [hkey]
  have hsort : sortByKeyE (windowSortKey niri sf) ltWKey (windowCandidates niri fs) =
      .error () := by
    unfold sortByKeyE
    rw [hdec]
  unfold WindowHandler.make
  rw [hsort]

/-- C9 witness: the dangling-reference snapshot makes construction fail. -/
theorem c9_witness : WindowHandler.make c9Niri true [] = .error () :=
  c9_unknown_workspace_id c9Niri true [] c9W (by decide) (by decide)

/-- C10: with `select_focused` and a focused window, the pre-selected label
is always the focused window's label rendered with the session's ambiguity
flags; and (concretely) when the active filters exclude the focused window,
that label occurs nowhere in the entry list. -/
theorem c10_preselected_label (niri : NiriState) (fs : List Matcher) (h : WindowHandler)
    (f : WindowEntry) (hmk : WindowHandler.make niri true fs = .ok h)
    (hfw : niri.focused_window = some f) :
    h.dmenu_selected = some (entry_to_dmenu (workspace_id_map niri.workspaces)
      h.multiple_workspaces h.multiple_outputs f) ∧
    (WindowHandler.make c10Niri true [Matcher.keyMatcher "app_id" (PyValue.str "b")] =
        .ok c10Handler ∧
      c10Handler.dmenu_selected = some "* A" ∧
      "* A" ∉ c10Handler.dmenu_entries) := by
  refine ⟨?_, by decide, by decide, by decide⟩
  have hsel := (windowHandler_make_elim hmk).2.2
  rw [hsel, if_pos rfl, hfw]
  rfl

/-- C10 witness: the theorem applied to the concrete filtered snapshot. -/
theorem c10_witness :
    c10Handler.dmenu_selected = some (entry_to_dmenu (workspace_id_map c10Niri.workspaces)
      c10Handler.multiple_workspaces c10Handler.multiple_outputs c10W1) ∧
    (WindowHandler.make c10Niri true [Matcher.keyMatcher "app_id" (PyValue.str "b")] =
        .ok c10Handler ∧
      c10Handler.dmenu_selected = some "* A" ∧
      "* A" ∉ c10Handler.dmenu_entries) :=
  c10_preselected_label c10Niri [Matcher.keyMatcher "app_id" (PyValue.str "b")]
    c10Handler c10W1 (by decide) (by decide)

/-- C5: with the `@focused` app-id filter and no focused window, `main`
swaps in the empty snapshot, builds an empty candidate set with an empty
label list, and still reaches the picker invocation (it is not skipped). -/
theorem c5_focused_filter_empty (niri : NiriState) (sf : Bool)
    (hnf : niri.focused_window = Option.none) :
    mainWindows niri sf (some "@focused") Option.none Option.none =
      MainOutcome.invokePicker [] Option.none := by
  have hmk : WindowHandler.make ⟨[], []⟩ sf [] =
      .ok ⟨[], false, false, "Window", [], Option.none⟩ := by
    cases sf <;> rfl
  have heff : effectiveNiri niri (some "@focused") = ⟨[], []⟩ := by
    unfold effectiveNiri
    rw [if_pos ⟨rfl, hnf⟩]
  have hflt : appIdFilters niri (some "@focused") = [] := by
    simp [appIdFilters, hnf]
  unfold mainWindows
  rw [heff, hflt]
  simp only [List.nil_append, hmk]
  rfl

/-- C5 witness: the theorem applied to a snapshot with no focused window. -/
theorem c5_witness :
    mainWindows c5Niri true (some "@focused") Option.none Option.none =
      MainOutcome.invokePicker [] Option.none :=
  c5_focused_filter_empty c5Niri true (by decide)

/-- C6: whenever the workspace selector resolves to zero matching workspaces
(over the snapshot `main` is actually using at that point), the run aborts
with exit code 1 before any picker invocation. -/
theorem c6_empty_workspace_selector (niri : NiriState) (sf : Bool) (appId : Option String)
    (wm : Option (List (String × PyValue))) (sel : WsSelector)
    (hres : resolveWorkspaces (effectiveNiri niri appId) sel = some []) :
    mainWindows niri sf appId wm (some sel) = MainOutcome.abort 1 := by
  unfold resolveWorkspaces at hres
  cases hms : selectorMatchers (effectiveNiri niri appId) sel with
  | none => rw [hms] at hres; exact absurd hres (by simp)
  | some ms =>
    rw [hms] at hres
    simp only [Option.map_some', Option.some.injEq] at hres
    simp only [mainWindows, hms, hres, List.map_nil, List.isEmpty_nil, if_true]

/-- C6 witness: a selector dict matching no workspace aborts the run. -/
theorem c6_witness :
    mainWindows c6Niri false Option.none Option.none
      (some (WsSelector.dict [("output", PyValue.str "DP-9")])) = MainOutcome.abort 1 :=
  c6_empty_workspace_selector c6Niri false Option.none Option.none
    (WsSelector.dict [("output", PyValue.str "DP-9")]) (by decide)

/-- C2: in every snapshot whose focused workspace is unique, the focused
workspace is ranked first when `select_focused` is true and last when it is
false (whenever the ranking succeeds at all). -/
theorem c2_workspace_focus_rule (niri : NiriState) (sf : Bool) (g : WorkspaceHandler)
    (ws : WorkspaceEntry) (hmk : WorkspaceHandler.make niri sf = .ok g)
    (hmem : ws ∈ niri.workspaces) (hfoc : ws.is_focused = true)
    (huniq : ∀ w ∈ niri.workspaces, w.is_focused = true → w = ws) :
    (sf = true → g.workspaces.head? = some ws) ∧
    (sf = false → g.workspaces.getLast? = some ws) := by
  obtain ⟨hs, -, -⟩ := workspaceHandler_make_elim hmk
  obtain ⟨hperm, hkeys, hpw⟩ :=
    sortByKeyE_spec WsKeyLe ltWsKey_true_le ltWsKey_false_le wsKeyLe_trans hs
  have hmemg : ws ∈ g.workspaces := hperm.mem_iff.mpr hmem
  constructor
  · intro hsf
    subst hsf
    apply head_of_pairwise_min hpw hmemg
    intro y hy hR
    have hyN : y ∈ niri.workspaces := hperm.mem_iff.mp hy
    by_cases hyf : y.is_focused = true
    · exact huniq y hyN hyf
    · exfalso
      have hyf' : y.is_focused = false := by
        revert hyf; cases y.is_focused <;> simp
      have hRle := hR _ _ rfl rfl
      unfold WsKeyLe workspaceSortKey at hRle
      simp only [hfoc, hyf', if_true, if_false, Bool.false_eq_true] at hRle
      split_ifs at hRle <;> omega
  · intro hsf
    subst hsf
    apply last_of_pairwise_max hpw hmemg
    intro y hy hR
    have hyN : y ∈ niri.workspaces := hperm.mem_iff.mp hy
    by_cases hyf : y.is_focused = true
    · exact huniq y hyN hyf
    · exfalso
      have hyf' : y.is_focused = false := by
        revert hyf; cases y.is_focused <;> simp
      have hRle := hR _ _ rfl rfl
      unfold WsKeyLe workspaceSortKey at hRle
      simp only [hfoc, hyf', if_true, if_false, Bool.false_eq_true] at hRle
      have hM : MAX = 9223372036854775807 := rfl
      split_ifs at hRle <;> omega

/-- C2 witness: on a concrete two-workspace snapshot the focused workspace
heads the `select_focused = true` ranking and ends the
`select_focused = false` ranking. -/
theorem c2_witness :
    WorkspaceHandler.make c2Niri true = .ok c2HandlerT ∧
    c2HandlerT.workspaces.head? = some c2WsF ∧
    WorkspaceHandler.make c2Niri false = .ok c2HandlerF ∧
    c2HandlerF.workspaces.getLast? = some c2WsF := by
  have h1 : WorkspaceHandler.make c2Niri true = .ok c2HandlerT := by decide
  have h2 : WorkspaceHandler.make c2Niri false = .ok c2HandlerF := by decide
  refine ⟨h1, ?_, h2, ?_⟩
  · exact (c2_workspace_focus_rule c2Niri true c2HandlerT c2WsF h1 (by decide) (by decide)
      (by decide)).1 rfl
  · exact (c2_workspace_focus_rule c2Niri false c2HandlerF c2WsF h2 (by decide) (by decide)
      (by decide)).2 rfl

/-- C1 counterexample: with `select_focused = true`, no filters, a unique
focused window among the candidates — but living on a non-focused
workspace — the first entry of the ranked sequence is the NON-focused
window `c1xW2`, not the focused `c1xW1`. -/
theorem c1_counterexample :
    WindowHandler.make c1xNiri true [] = .ok c1xHandler ∧
    c1xHandler.windows.head? = some c1xW2 ∧
    c1xW2.is_focused = false ∧
    c1xW1 ∈ c1xHandler.windows ∧
    c1xW1.is_focused = true ∧
    (∀ w ∈ c1xHandler.windows, w.is_focused = true → w = c1xW1) := by decide

/-- C1 (amended): with a unique focused window among the ranked candidates,
(a) when `select_focused` is true AND the focused window's workspace record
is the focused workspace, the focused window is the first entry; (b) when
`select_focused` is false, every non-focused candidate whose key shares the
focused candidate's workspace-priority bucket is ranked strictly before it. -/
theorem c1_window_focus_rule (niri : NiriState) (fs : List Matcher) :
    (∀ (h : WindowHandler) (f : WindowEntry) (wsf : WorkspaceEntry),
      WindowHandler.make niri true fs = .ok h →
      f ∈ h.windows → f.is_focused = true →
      (∀ w ∈ h.windows, w.is_focused = true → w = f) →
      workspace_id_map niri.workspaces f.workspace_id = some wsf →
      wsf.is_focused = true →
      h.windows.head? = some f) ∧
    (∀ (h : WindowHandler),
      WindowHandler.make niri false fs = .ok h →
      ∀ (i j : Nat) (hi : i < h.windows.length) (hj : j < h.windows.length)
        (ki kj : WKey),
      (h.windows.get ⟨i, hi⟩).is_focused = true →
      (h.windows.get ⟨j, hj⟩).is_focused = false →
      windowSortKey niri false (h.windows.get ⟨i, hi⟩) = .ok ki →
      windowSortKey niri false (h.windows.get ⟨j, hj⟩) = .ok kj →
      ki.workspace_prio = kj.workspace_prio →
      j < i) := by
  constructor
  · intro h f wsf hmk hmemf hffoc huniq hlkp hwsf
    obtain ⟨hs, -, -⟩ := windowHandler_make_elim hmk
    obtain ⟨hperm, hkeys, hpw⟩ :=
      sortByKeyE_spec WKeyLe ltWKey_true_le ltWKey_false_le wKeyLe_trans hs
    apply head_of_pairwise_min hpw hmemf
    intro y hy hR
    obtain ⟨ky, hky⟩ := hkeys y hy
    have hkf : windowSortKey niri true f =
        .ok ⟨MIN, MIN, (if wsf.output = niri.focused_output then MIN else 0),
             wsf.output, wsf.idx, f.id⟩ := by
      simp [windowSortKey, hlkp, hwsf, hffoc]
    have hRle := hR ky _ hky hkf
    obtain ⟨wsy, hlky, hkyeq⟩ := windowSortKey_ok_elim hky
    by_cases hyf : y.is_focused = true
    · exact huniq y hy hyf
    · exfalso
      have hyf' : y.is_focused = false := by
        revert hyf; cases y.is_focused <;> simp
      subst hkyeq
      unfold WKeyLe at hRle
      simp only [hyf', Bool.false_eq_true, if_true, if_false] at hRle
      have hM : MIN = -9223372036854775808 := rfl
      split_ifs at hRle <;> omega
  · intro h hmk i j hi hj ki kj hfi hfj hki hkj hwp
    obtain ⟨hs, -, -⟩ := windowHandler_make_elim hmk
    obtain ⟨hperm, hkeys, hpw⟩ :=
      sortByKeyE_spec WKeyLe ltWKey_true_le ltWKey_false_le wKeyLe_trans hs
    rcases Nat.lt_trichotomy j i with hij | hij | hij
    · exact hij
    · exfalso
      subst hij
      have hsame : h.windows.get ⟨j, hi⟩ = h.windows.get ⟨j, hj⟩ := rfl
      rw [← hsame, hfi] at hfj
      exact Bool.noConfusion hfj
    · exfalso
      have hR := (List.pairwise_iff_get.mp hpw) ⟨i, hi⟩ ⟨j, hj⟩ hij
      have hRle := hR ki kj hki hkj
      obtain ⟨wsi, hlki, hkieq⟩ := windowSortKey_ok_elim hki
      obtain ⟨wsj, hlkj, hkjeq⟩ := windowSortKey_ok_elim hkj
      subst hkieq
      subst hkjeq
      unfold WKeyLe at hRle
      simp only [hfi, hfj, Bool.false_eq_true, if_true, if_false] at hRle hwp
      have hM : MIN = -9223372036854775808 := rfl
      split_ifs at hRle hwp <;> omega

/-- C1 witness: on a concrete snapshot the focused window (on the focused
workspace) heads the `select_focused = true` ranking, and with
`select_focused = false` the non-focused candidate at position 0 precedes
the focused one at position 1. -/
theorem c1_witness :
    (WindowHandler.make c1wNiri true [] = .ok c1wHandlerT ∧
      c1wHandlerT.windows.head? = some c1wW1) ∧
    (WindowHandler.make c1wNiri false [] = .ok c1wHandlerF ∧ (0 : Nat) < 1) := by
  have hT : WindowHandler.make c1wNiri true [] = .ok c1wHandlerT := by decide
  have hF : WindowHandler.make c1wNiri false [] = .ok c1wHandlerF := by decide
  refine ⟨⟨hT, ?_⟩, hF, ?_⟩
  · exact (c1_window_focus_rule c1wNiri []).1 c1wHandlerT c1wW1 c1wWs10 hT (by decide)
      (by decide) (by decide) (by decide) (by decide)
  · exact (c1_window_focus_rule c1wNiri []).2 c1wHandlerF hF 1 0 (by decide) (by decide)
      ⟨MIN, 0, MIN, Option.none, 1, 1⟩ ⟨MIN, MIN, MIN, Option.none, 1, 2⟩
      (by decide) (by decide) (by decide) (by decide) (by decide)

/-- C4 counterexample: a workspace whose `name` is present-but-empty is
rendered by its idx (`WA (@1)`), and its present-but-empty `output` is not
appended — against the claim's reading, which predicts `WA (@ / )` here
(name present, multiple outputs, output present). -/
theorem c4_counterexample :
    WindowHandler.make c4Niri true [] = .ok c4Handler ∧
    c4Handler.dmenu_entries = ["WA (@1)", "WB (@2 / DP-1)"] ∧
    c4WsE.name = some "" ∧
    c4WsE.output = some "" ∧
    c4Handler.multiple_workspaces = true ∧
    c4Handler.multiple_outputs = true ∧
    "WA (@1)" ≠ "WA (@ / )" := by decide

/-- C4 (amended): a candidate's rendered label is its title, `* `-prefixed
iff focused; the ` (@...)` annotation appears iff the candidate set spans
several workspaces, naming the workspace by its name when present AND
non-empty, else by its idx; ` / output` is added inside iff additionally
several outputs are spanned and the workspace's output is present AND
non-empty — stated as equality with the spec-side label function, plus the
spec's Scenario A. -/
theorem c4_window_label_format (mw mo : Bool) (wmapGet : Int → Option WorkspaceEntry)
    (entry : WindowEntry) (wsp : WorkspaceEntry)
    (hlkp : wmapGet entry.workspace_id = some wsp) :
    entry_to_dmenu wmapGet mw mo entry = specWindowLabel mw mo wsp entry ∧
    (WindowHandler.make scenANiri true [] = .ok scenAHandler ∧
      scenAHandler.dmenu_entries = ["* A"] ∧
      scenAHandler.dmenu_selected = some "* A") := by
  refine ⟨?_, by decide, by decide, by decide⟩
  unfold entry_to_dmenu specWindowLabel
  rw [hlkp]
  cases mw
  · rfl
  · rfl

/-- C4 witness: the label equality evaluated on the counterexample
snapshot's second window, whose workspace resolves. -/
theorem c4_witness :
    (entry_to_dmenu (workspace_id_map c4Niri.workspaces) true true c4W2 =
      specWindowLabel true true c4WsD c4W2) ∧
    (WindowHandler.make scenANiri true [] = .ok scenAHandler ∧
      scenAHandler.dmenu_entries = ["* A"] ∧
      scenAHandler.dmenu_selected = some "* A") :=
  c4_window_label_format true true (workspace_id_map c4Niri.workspaces) c4W2 c4WsD (by decide)
/-- C7 witness: the bounds theorem applied at concrete out-of-range and
negative in-range indices on concrete handlers. -/
theorem c7_witness :
    scenAHandler.select 5 = .error () ∧
    c8Handler.select (-3) = .error () ∧
    scenAHandler.select (-1) = scenAHandler.select (-1 + scenAHandler.windows.length) := by
  refine ⟨?_, ?_, ?_⟩
  · exact (c7_select_bounds scenAHandler c8Handler 5).1 (by decide)
  · exact (c7_select_bounds scenAHandler c8Handler (-3)).2.1 (by decide)
  · exact (c7_select_bounds scenAHandler c8Handler (-1)).2.2.1 (by decide)

/-- C8 witness: the round-trip theorem applied at position 0 of Scenario A's
window handler and position 1 of the C2 workspace handler (no output, so
only the focus-workspace call). -/
theorem c8_witness :
    scenAHandler.select ((0 : Nat) : Int) = .ok [NiriAction.focusWindow 1] ∧
    c2HandlerT.select ((1 : Nat) : Int) = .ok [NiriAction.focusWorkspace 2] := by
  have h := c8_round_trip scenAHandler c2HandlerT 0 1 (by decide) (by decide)
  exact ⟨h.1, h.2⟩
